import Mathlib

/-!
Verification development for the global customer-support orchestrator
(`customer_support.py`).  The Python data model and the operations the
spec's claims are about are embedded shallowly:

* dataclasses become structures;
* the wall clock (`datetime.now()`) is abstracted into an `Env` record: the
  `clock` field gives the successive `isoformat()` timestamps appearing in
  emitted records (in emission order), `epoch` is the
  `int(datetime.now().timestamp())` value embedded in log ids, and
  `elapsedMs` the measured elapsed milliseconds of the run;
* the CrewAI `crew.kickoff()` call is abstracted into a completion oracle
  `CompletionFn : List String → String`, mapping the list of task
  descriptions of the crew to the generated text (the orchestrator treats
  the completion capability as an external collaborator; its agents,
  `Process.sequential`, `verbose` and `memory` settings are metadata that
  do not influence the orchestrator's own output);
* the generator `process_query_stream` becomes the finite list of the
  dictionaries it yields, in yield order (the generator is straight-line
  code: the list is its exact trace);
* dictionaries / `asdict` payloads become values of a small JSON-like type
  `JVal`.  Purchase amounts are whole-dollar floats in the seed data and
  are modelled as `Int`.
-/

/-- JSON-like values, covering the dictionaries the Python code builds
(`asdict` results, step `data` payloads and yielded stream records). -/
inductive JVal where
  | jstr : String → JVal
  | jnum : Int → JVal
  | jbool : Bool → JVal
  | jobj : List (String × JVal) → JVal
  | jarr : List JVal → JVal

/-- Field lookup in a JSON-like object (`d.get(key)` / `key in d`);
returns `none` on a missing key or a non-object. -/
def jfield : JVal → String → Option JVal
  | .jobj fields, key => (fields.find? (fun kv => kv.fst == key)).map (fun kv => kv.snd)
  | _, _ => none

/-- Dataclass `Purchase` (`amount` is a whole-dollar float in all seed
data; modelled as `Int`). -/
structure Purchase where
  id : String
  product : String
  amount : Int
  date : String
  status : String
deriving DecidableEq, Repr

/-- Dataclass `Customer`. -/
structure Customer where
  id : String
  name : String
  email : String
  region : String
  tier : String
  language : String
  gdpr_consent : Bool
  last_contact : String
  preferred_channel : String
  purchases : List Purchase
deriving DecidableEq, Repr

/-- Dataclass `SupportQuery`. -/
structure SupportQuery where
  id : String
  customer_id : String
  message : String
  timestamp : String
  priority : String
  category : String
deriving DecidableEq, Repr

/-- Dataclass `AgentResponse` (one collaboration step).  `data` is the
optional structured payload. -/
structure AgentResponse where
  agent : String
  message : String
  timestamp : String
  data : Option JVal := none

/-- Dataclass `CollaborationLog`. -/
structure CollaborationLog where
  id : String
  query_id : String
  steps : List AgentResponse
  final_response : String
  processing_time : Nat

/-- Serialization of a `Purchase` as `dataclasses.asdict` produces it. -/
def purchaseJson (p : Purchase) : JVal :=
  .jobj [("id", .jstr p.id), ("product", .jstr p.product), ("amount", .jnum p.amount),
         ("date", .jstr p.date), ("status", .jstr p.status)]

/-- Serialization of a `Customer` as `dataclasses.asdict` produces it. -/
def customerJson (c : Customer) : JVal :=
  .jobj [("id", .jstr c.id), ("name", .jstr c.name), ("email", .jstr c.email),
         ("region", .jstr c.region), ("tier", .jstr c.tier), ("language", .jstr c.language),
         ("gdpr_consent", .jbool c.gdpr_consent), ("last_contact", .jstr c.last_contact),
         ("preferred_channel", .jstr c.preferred_channel),
         ("purchases", .jarr (c.purchases.map purchaseJson))]

namespace CustomerService

/-- Seed customer `cust-us-001` from `CustomerService.CUSTOMERS`. -/
def custUs001 : Customer :=
  { id := "cust-us-001", name := "Sarah Johnson", email := "sarah.johnson@email.com",
    region := "US", tier := "Gold", language := "English", gdpr_consent := false,
    last_contact := "2024-09-05T14:30:00Z", preferred_channel := "email",
    purchases := [⟨"p1", "Enterprise Security Suite", 2500, "2024-08-15", "completed"⟩,
                  ⟨"p2", "Compliance Module", 800, "2024-09-01", "completed"⟩] }

/-- Seed customer `cust-eu-001`. -/
def custEu001 : Customer :=
  { id := "cust-eu-001", name := "Hans Müller", email := "hans.mueller@email.de",
    region := "EU", tier := "Platinum", language := "German", gdpr_consent := true,
    last_contact := "2024-09-08T09:15:00Z", preferred_channel := "phone",
    purchases := [⟨"p3", "Advanced Threat Detection", 5000, "2024-07-20", "completed"⟩,
                  ⟨"p4", "GDPR Compliance Tools", 1200, "2024-08-30", "completed"⟩] }

/-- Seed customer `cust-eu-002`. -/
def custEu002 : Customer :=
  { id := "cust-eu-002", name := "Marie Dubois", email := "marie.dubois@email.fr",
    region := "EU", tier := "Silver", language := "French", gdpr_consent := true,
    last_contact := "2024-09-10T16:45:00Z", preferred_channel := "chat",
    purchases := [⟨"p5", "Basic Security Package", 1000, "2024-08-25", "completed"⟩] }

/-- Seed customer `cust-eu-003`. -/
def custEu003 : Customer :=
  { id := "cust-eu-003", name := "Klaus Weber", email := "klaus.weber@email.de",
    region := "EU", tier := "Platinum", language := "German", gdpr_consent := true,
    last_contact := "2024-09-11T08:30:00Z", preferred_channel := "email",
    purchases := [⟨"p7", "Enterprise Security Suite", 3500, "2024-08-20", "completed"⟩,
                  ⟨"p8", "Advanced Analytics Module", 1500, "2024-09-05", "completed"⟩] }

/-- Seed customer `cust-eu-004`. -/
def custEu004 : Customer :=
  { id := "cust-eu-004", name := "Marco Rossi", email := "marco.rossi@email.it",
    region := "EU", tier := "Gold", language := "Italian", gdpr_consent := true,
    last_contact := "2024-09-09T14:15:00Z", preferred_channel := "phone",
    purchases := [⟨"p9", "Professional Security Tools", 2200, "2024-08-28", "completed"⟩,
                  ⟨"p10", "Compliance Dashboard", 800, "2024-09-02", "completed"⟩] }

/-- Seed customer `cust-us-002`. -/
def custUs002 : Customer :=
  { id := "cust-us-002", name := "Robert Chen", email := "robert.chen@email.com",
    region := "US", tier := "Bronze", language := "English", gdpr_consent := false,
    last_contact := "2024-09-03T11:20:00Z", preferred_channel := "email",
    purchases := [⟨"p6", "Starter Security Tools", 500, "2024-08-10", "completed"⟩] }

/-- Static table `CustomerService.CUSTOMERS`. -/
def CUSTOMERS : List Customer :=
  [custUs001, custEu001, custEu002, custEu003, custEu004, custUs002]

/-- Translation of `CustomerService.get_customer_by_id`: first customer of
the table with the given id, else `None`. -/
def get_customer_by_id (customer_id : String) : Option Customer :=
  CUSTOMERS.find? (fun c => c.id == customer_id)

/-- Translation of `CustomerService.get_customers_by_region`. -/
def get_customers_by_region (region : String) : List Customer :=
  CUSTOMERS.filter (fun c => c.region == region)

/-- Translation of `CustomerService.get_gdpr_compliant_data`: the customer
when `customer and customer.region == "EU" and customer.gdpr_consent`,
else the customer when `customer and customer.region == "US"`, else
`None`. -/
def get_gdpr_compliant_data (customer_id : String) : Option Customer :=
  match get_customer_by_id customer_id with
  | some customer =>
    if customer.region = "EU" ∧ customer.gdpr_consent = true then some customer
    else if customer.region = "US" then some customer
    else none
  | none => none

end CustomerService

/-- Abstraction of the run-time environment: `clock n` is the n-th
`datetime.now().isoformat()` timestamp appearing in emitted records (in
emission order), `epoch` the `int(datetime.now().timestamp())` embedded in
the log id, `elapsedMs` the measured elapsed milliseconds. -/
structure Env where
  clock : Nat → String
  epoch : Nat
  elapsedMs : Nat

/-- Abstraction of `crew.kickoff()`: a completion oracle from the list of
the crew's task descriptions to the generated text. -/
def CompletionFn := List String → String

/-- Python `f"{b}"` rendering of a boolean. -/
def pyBool (b : Bool) : String := if b then "True" else "False"

namespace GlobalCustomerSupportService

/-- Description of the US analysis `Task` (identical text in
`process_query` and `process_query_stream`). -/
def analysis_task_description (customer : Customer) (query : SupportQuery) : String :=
  "You are a US-based customer support specialist. Analyze this support query:\n\n" ++
  "Customer: " ++ customer.name ++ " (" ++ customer.region ++ ")\n" ++
  "Tier: " ++ customer.tier ++ " | Language: " ++ customer.language ++ "\n" ++
  "Query: " ++ query.message ++ "\n" ++
  "Category: " ++ query.category ++ " | Priority: " ++ query.priority ++ "\n\n" ++
  "Provide your initial analysis and determine if we need EU agent collaboration " ++
  "for this " ++ (if customer.region = "EU" then "EU" else "US") ++ " customer. " ++
  "Consider data sovereignty and GDPR requirements."

/-- Description of the EU data-access `Task` (identical text in
`process_query` and `process_query_stream`). -/
def eu_task_description (customer : Customer) (query : SupportQuery) : String :=
  "You are an EU-based compliance and data specialist. " ++
  "Customer: " ++ customer.name ++ " (" ++ customer.region ++ ") - " ++ customer.tier ++ " tier\n" ++
  "Language: " ++ customer.language ++ " | GDPR Consent: " ++ pyBool customer.gdpr_consent ++ "\n" ++
  "Query: " ++ query.message ++ "\n\n" ++
  (if customer.region = "EU" then
    "This EU customer requires GDPR-compliant data handling. " ++
    "Provide customer insights while ensuring data protection compliance. " ++
    "Include tier analysis, purchase history context, and regional considerations."
  else
    "This US customer query requires cross-regional security validation. " ++
    "Provide security assessment and any EU-relevant compliance insights.")

/-- Shared first lines of the final-response `Task` description (customer
details, query information). -/
def response_task_details (customer : Customer) (query : SupportQuery) : String :=
  "Generate a personalized customer support response in " ++ customer.language ++ ":\n\n" ++
  "Customer Details:\n" ++
  "- Name: " ++ customer.name ++ "\n" ++
  "- Region: " ++ customer.region ++ "\n" ++
  "- Tier: " ++ customer.tier ++ "\n" ++
  "- Language: " ++ customer.language ++ "\n" ++
  "- Preferred Contact: " ++ customer.preferred_channel ++ "\n" ++
  "- GDPR Consent: " ++ pyBool customer.gdpr_consent ++ "\n\n" ++
  "Query Information:\n" ++
  "- Message: " ++ query.message ++ "\n" ++
  "- Category: " ++ query.category ++ "\n" ++
  "- Priority: " ++ query.priority ++ "\n\n"

/-- Shared numbered requirements of the final-response `Task`
description. -/
def response_task_requirements (customer : Customer) : String :=
  "IMPORTANT RESPONSE REQUIREMENTS:\n" ++
  "1. Write the ENTIRE response in " ++ customer.language ++ " (not English)\n" ++
  "2. Use appropriate business greeting for " ++ customer.language ++ "\n" ++
  "3. Reference their " ++ customer.tier ++ " tier status appropriately\n" ++
  "4. Include next steps via their preferred " ++ customer.preferred_channel ++ " channel\n" ++
  "5. Add GDPR compliance note if EU customer\n" ++
  "6. Mention this response was created through US-EU collaboration\n\n"

/-- Description of the final-response `Task` in `process_query`. -/
def response_task_description (customer : Customer) (query : SupportQuery) : String :=
  response_task_details customer query ++
  response_task_requirements customer ++
  "Use context from previous agent analysis to inform your response."

/-- Description of the final-response `Task` in `process_query_stream`
(includes the first 200 characters of the previous analyses). -/
def stream_response_task_description (customer : Customer) (query : SupportQuery)
    (us_analysis eu_analysis : String) : String :=
  response_task_details customer query ++
  "Previous Analysis Context:\n" ++
  "- US Agent Analysis: " ++ us_analysis.take 200 ++ "...\n" ++
  "- EU Agent Analysis: " ++ eu_analysis.take 200 ++ "...\n\n" ++
  response_task_requirements customer ++
  "Create ONE cohesive response (not duplicate content)."

/-- The `data` payload of the first analysis step (identical dictionary in
`process_query` and `process_query_stream`). -/
def query_analysis_data (query : SupportQuery) (customer : Customer) : JVal :=
  .jobj [("query_analysis",
    .jobj [("category", .jstr query.category), ("priority", .jstr query.priority),
           ("customer_region", .jstr customer.region)])]

/-- Message of the final completion step (identical f-string in
`process_query` and `process_query_stream`). -/
def final_step_message (customer : Customer) : String :=
  "🎯 Multi-agent collaboration completed. Final response generated in " ++
  customer.language ++ " with " ++ customer.region ++ " compliance."

/-- The `data` payload of the final completion step (identical dictionary
in `process_query` and `process_query_stream`). -/
def final_step_data (query : SupportQuery) (customer : Customer) : JVal :=
  .jobj [("customer_data", customerJson customer),
         ("resolution_path", .jstr (query.category ++ "_tier_" ++ customer.tier.toLower))]

/-- Translation of `GlobalCustomerSupportService._create_error_response`. -/
def create_error_response (env : Env) (query : SupportQuery) (error_message : String) :
    CollaborationLog :=
  { id := "error-" ++ toString env.epoch,
    query_id := query.id,
    steps := [{ agent := "US",
                message := "Error processing query: " ++ error_message,
                timestamp := env.clock 0 }],
    final_response := "I apologize, but I encountered an error processing your request: " ++
      error_message ++ ". Please try again or contact our support team directly.",
    processing_time := 0 }

/-- Translation of `GlobalCustomerSupportService.process_query`.  The four
pre-kickoff steps are appended first, the crew of the three tasks is
executed (one `kickoff`), then the completion step is appended; `str(result)`
becomes the log's `final_response`. -/
def process_query (env : Env) (kickoff : CompletionFn) (query : SupportQuery) :
    CollaborationLog :=
  match CustomerService.get_customer_by_id query.customer_id with
  | none => create_error_response env query "Customer not found"
  | some customer =>
    let steps : List AgentResponse :=
      [{ agent := "US",
         message := "📥 Analyzing query from " ++ customer.name ++ " (" ++ customer.region ++
           "). Calling US LLM endpoint...",
         timestamp := env.clock 0,
         data := some (query_analysis_data query customer) },
       { agent := "US",
         message := "🌍 Requesting EU agent collaboration for " ++
           (if customer.region = "EU" then "GDPR compliance" else "cross-regional validation") ++
           ". Establishing secure connection to EU endpoint...",
         timestamp := env.clock 1 },
       { agent := "EU",
         message := "🔒 EU Agent responding. Calling EU LLM endpoint for " ++
           (if customer.region = "EU" then "GDPR-compliant data access" else "security validation") ++
           "...",
         timestamp := env.clock 2 },
       { agent := "US",
         message := "✨ Generating personalized response using multi-agent intelligence. " ++
           "Calling US LLM endpoint for final response...",
         timestamp := env.clock 3 }]
    let result := kickoff [analysis_task_description customer query,
                           eu_task_description customer query,
                           response_task_description customer query]
    let steps := steps ++
      [{ agent := "US",
         message := final_step_message customer,
         timestamp := env.clock 4,
         data := some (final_step_data query customer) }]
    { id := "real-collab-" ++ toString env.epoch,
      query_id := query.id,
      steps := steps,
      final_response := result,
      processing_time := env.elapsedMs }

/-- A record yielded by the generator `process_query_stream`.  The three
constructors are the three dictionary shapes the generator yields; the
dictionaries themselves are recovered by `jsonOf`. -/
inductive StreamEvent where
  | stepEvt : AgentResponse → StreamEvent
  | completeEvt : (id query_id final_response : String) → (processing_time : Nat) → StreamEvent
  | errorEvt : (error : String) → (timestamp : String) → StreamEvent

/-- The exact dictionary a `StreamEvent` stands for.  Step and complete
records carry the tag field `type`; the error record is yielded as
`{"error": ..., "timestamp": ...}` with no `type` key (source line 494).
A step dictionary carries a `data` key only when a payload was given. -/
def jsonOf : StreamEvent → JVal
  | .stepEvt s =>
    .jobj [("type", .jstr "step"),
           ("step", .jobj ([("agent", .jstr s.agent), ("message", .jstr s.message),
                            ("timestamp", .jstr s.timestamp)] ++
             (match s.data with
              | some d => [("data", d)]
              | none => [])))]
  | .completeEvt id query_id final_response processing_time =>
    .jobj [("type", .jstr "complete"),
           ("collaboration",
            .jobj [("id", .jstr id), ("query_id", .jstr query_id),
                   ("final_response", .jstr final_response),
                   ("processing_time", .jnum processing_time)])]
  | .errorEvt error timestamp =>
    .jobj [("error", .jstr error), ("timestamp", .jstr timestamp)]

/-- Translation of the generator
`GlobalCustomerSupportService.process_query_stream` into the finite list
of records it yields, in yield order.  The three `crew.kickoff()` calls
are interleaved between the yields in the source; being effect-free in
the model, they appear as `let`-bound oracle applications. -/
def process_query_stream (env : Env) (kickoff : CompletionFn) (query : SupportQuery) :
    List StreamEvent :=
  match CustomerService.get_customer_by_id query.customer_id with
  | none => [.errorEvt "Customer not found" (env.clock 0)]
  | some customer =>
    let us_analysis := kickoff [analysis_task_description customer query]
    let eu_analysis := kickoff [eu_task_description customer query]
    let final_response :=
      kickoff [stream_response_task_description customer query us_analysis eu_analysis]
    [.stepEvt
      { agent := "US",
        message := "📥 Starting analysis of query from " ++ customer.name ++ " (" ++
          customer.region ++ "). Initializing US LLM endpoint connection...",
        timestamp := env.clock 0,
        data := some (query_analysis_data query customer) },
     .stepEvt
      { agent := "US",
        message := "🧠 Calling US LLM (20.185.179.136:61100) for query analysis. " ++
          "Processing customer tier: " ++ customer.tier ++ ", Language: " ++
          customer.language ++ "...",
        timestamp := env.clock 1 },
     .stepEvt
      { agent := "US",
        message := "✅ US LLM analysis completed. Initiating EU agent collaboration for " ++
          (if customer.region = "EU" then "GDPR compliance" else "cross-regional validation") ++
          "...",
        timestamp := env.clock 2 },
     .stepEvt
      { agent := "EU",
        message := "🔒 EU Agent connecting. Calling EU LLM (9.163.149.120:61102) for " ++
          (if customer.region = "EU" then "GDPR-compliant data access" else "security validation") ++
          "...",
        timestamp := env.clock 3 },
     .stepEvt
      { agent := "EU",
        message := "✅ EU LLM analysis completed. Customer data processed with compliance " ++
          "verification. Sharing insights with US agent...",
        timestamp := env.clock 4,
        data := some (.jobj [("gdpr_check", .jbool customer.gdpr_consent),
                             ("data_access", .jstr "compliant"),
                             ("customer_data", customerJson customer)]) },
     .stepEvt
      { agent := "US",
        message := "✨ Generating personalized response in " ++ customer.language ++
          ". Combining US analysis + EU compliance data. Calling US LLM for final response...",
        timestamp := env.clock 5 },
     .stepEvt
      { agent := "US",
        message := final_step_message customer,
        timestamp := env.clock 6,
        data := some (final_step_data query customer) },
     .completeEvt ("stream-collab-" ++ toString env.epoch) query.id final_response env.elapsedMs]

/-- The steps a stream trace materializes: the payloads of its `step`
records, in order. -/
def streamSteps (events : List StreamEvent) : List AgentResponse :=
  events.filterMap fun e =>
    match e with
    | .stepEvt s => some s
    | _ => none

/-- A record is terminal when it is a `complete` or an `error` record. -/
def isTerminalEvent : StreamEvent → Bool
  | .stepEvt _ => false
  | .completeEvt _ _ _ _ => true
  | .errorEvt _ _ => true

end GlobalCustomerSupportService

/-- One entry of the `lang_templates` table of
`generate_enhanced_personalized_response`: the twelve template strings of
a language.  The `\x7b...\x7d` escapes are the literal `.format`
placeholder braces of the source. -/
structure LangBundle where
  greeting : String
  thank_you : String
  processed_through : String
  including_specialists : String
  technical_analysis : String
  billing_inquiry : String
  general_inquiry : String
  gdpr_notice : String
  security_notice : String
  collaboration_footer : String
  best_regards : String
  footer : String
deriving DecidableEq, Repr

/-- The `"German"` entry of `lang_templates`. -/
def germanBundle : LangBundle :=
  { greeting := "Guten Tag",
    thank_you := "Vielen Dank für Ihre Kontaktaufnahme mit unserem Global Customer Support Team.",
    processed_through := "Ihre Anfrage wurde durch unser fortschrittliches Multi-Region-Kollaborationssystem bearbeitet",
    including_specialists := ", einschließlich unserer EU-Compliance-Spezialisten",
    technical_analysis := "Unsere technische Analyse zeigt, dass Sie Probleme mit Ihrem \x7bproduct\x7d haben. Als geschätzter \x7btier\x7d-Tier-Kunde wurde dies an unser Spezialistenteam eskaliert, das Sie innerhalb von 2 Stunden über \x7bchannel\x7d kontaktieren wird.",
    billing_inquiry := "Bezüglich Ihrer Rechnungsanfrage für \x7bproduct\x7d werden unsere Rechnungsspezialisten (koordiniert zwischen unseren US- und EU-Teams) Ihr Konto überprüfen und Sie über \x7bchannel\x7d kontaktieren.",
    general_inquiry := "Ihre allgemeine Anfrage wurde von unserem Multi-Regional-Support-Team gründlich überprüft. Basierend auf Ihrem \x7btier\x7d-Tier-Status und Ihrer Service-Historie werden wir umfassende Unterstützung bieten.",
    gdpr_notice := "🔒 Datenschutzhinweis: Diese Antwort wurde in vollständiger Übereinstimmung mit der DSGVO verarbeitet. Ihre Daten wurden ausschließlich von unseren EU-basierten Systemen und Agenten behandelt.",
    security_notice := "🔐 Sicherheitshinweis: Ihre Anfrage wurde durch unsere sichere Multi-Regional-Infrastruktur mit angemessenen Datenschutzmaßnahmen verarbeitet.",
    collaboration_footer := "Diese Antwort wurde durch die Zusammenarbeit zwischen unseren US- und EU-Support-Teams erstellt, um sicherzustellen, dass Sie die höchste Servicequalität in allen Regionen erhalten.",
    best_regards := "Mit freundlichen Grüßen,\nGlobal Customer Support Team",
    footer := "🇺🇸 US-Betrieb • 🇪🇺 EU-Compliance • 🌍 Multi-Regionale Exzellenz" }

/-- The `"Italian"` entry of `lang_templates`. -/
def italianBundle : LangBundle :=
  { greeting := "Buongiorno",
    thank_you := "Grazie per aver contattato il nostro team di Global Customer Support.",
    processed_through := "La vostra richiesta è stata elaborata attraverso il nostro avanzato sistema di collaborazione multi-regionale",
    including_specialists := ", inclusi i nostri specialisti di conformità UE",
    technical_analysis := "La nostra analisi tecnica indica che state riscontrando problemi con il vostro \x7bproduct\x7d. Come stimato cliente tier \x7btier\x7d, questo è stato escalato al nostro team specialistico che vi contatterà tramite \x7bchannel\x7d entro 2 ore.",
    billing_inquiry := "Riguardo alla vostra richiesta di fatturazione per \x7bproduct\x7d, i nostri specialisti di fatturazione (coordinandosi tra i team US e UE) esamineranno il vostro account e vi contatteranno tramite \x7bchannel\x7d.",
    general_inquiry := "La vostra richiesta generale è stata accuratamente esaminata dal nostro team di supporto multi-regionale. Basandoci sul vostro status tier \x7btier\x7d e sulla cronologia dei servizi, forniremo assistenza completa.",
    gdpr_notice := "🔒 Avviso Protezione Dati: Questa risposta è stata elaborata in piena conformità con il regolamento GDPR. I vostri dati sono stati gestiti esclusivamente dai nostri sistemi e agenti basati nell\x27UE.",
    security_notice := "🔐 Avviso Sicurezza: La vostra richiesta è stata elaborata attraverso la nostra infrastruttura multi-regionale sicura con appropriate misure di protezione dati.",
    collaboration_footer := "Questa risposta è stata generata attraverso la collaborazione tra i nostri team di supporto US e UE, assicurando che riceviate la massima qualità del servizio in tutte le regioni.",
    best_regards := "Cordiali saluti,\nTeam Global Customer Support",
    footer := "🇺🇸 Operazioni US • 🇪🇺 Conformità UE • 🌍 Eccellenza Multi-Regionale" }

/-- The `"French"` entry of `lang_templates`. -/
def frenchBundle : LangBundle :=
  { greeting := "Bonjour",
    thank_you := "Merci d\x27avoir contacté notre équipe de Global Customer Support.",
    processed_through := "Votre demande a été traitée par notre système avancé de collaboration multi-régionale",
    including_specialists := ", incluant nos spécialistes de conformité UE",
    technical_analysis := "Notre analyse technique indique que vous rencontrez des problèmes avec votre \x7bproduct\x7d. En tant que client estimé de niveau \x7btier\x7d, ceci a été escaladé à notre équipe spécialisée qui vous contactera via \x7bchannel\x7d dans les 2 heures.",
    billing_inquiry := "Concernant votre demande de facturation pour \x7bproduct\x7d, nos spécialistes de facturation (coordonnant entre nos équipes US et UE) examineront votre compte et vous contacteront via \x7bchannel\x7d.",
    general_inquiry := "Votre demande générale a été soigneusement examinée par notre équipe de support multi-régionale. Basé sur votre statut niveau \x7btier\x7d et l\x27historique de service, nous fournirons une assistance complète.",
    gdpr_notice := "🔒 Avis Protection des Données: Cette réponse a été traitée en pleine conformité avec le règlement RGPD. Vos données ont été gérées exclusivement par nos systèmes et agents basés dans l\x27UE.",
    security_notice := "🔐 Avis Sécurité: Votre demande a été traitée par notre infrastructure multi-régionale sécurisée avec des mesures appropriées de protection des données.",
    collaboration_footer := "Cette réponse a été générée par la collaboration entre nos équipes de support US et UE, garantissant que vous recevez la plus haute qualité de service dans toutes les régions.",
    best_regards := "Cordialement,\nÉquipe Global Customer Support",
    footer := "🇺🇸 Opérations US • 🇪🇺 Conformité UE • 🌍 Excellence Multi-Régionale" }

/-- The `"English"` entry of `lang_templates` (also the fallback
bundle). -/
def englishBundle : LangBundle :=
  { greeting := "Hello",
    thank_you := "Thank you for contacting our Global Customer Support team.",
    processed_through := "Your inquiry has been processed through our advanced multi-region collaboration system",
    including_specialists := ", including our EU compliance specialists",
    technical_analysis := "Our technical analysis indicates you\x27re experiencing issues with your \x7bproduct\x7d. As a valued \x7btier\x7d tier customer, this has been escalated to our specialist team who will contact you via \x7bchannel\x7d within 2 hours.",
    billing_inquiry := "Regarding your billing inquiry for \x7bproduct\x7d, our billing specialists (coordinating between our US and EU teams) will review your account and contact you via \x7bchannel\x7d.",
    general_inquiry := "Your general inquiry has been thoroughly reviewed by our multi-regional support team. Based on your \x7btier\x7d tier status and service history, we\x27ll provide comprehensive assistance.",
    gdpr_notice := "🔒 Data Protection Notice: This response was processed in full compliance with GDPR regulations. Your data was handled exclusively by our EU-based systems and agents.",
    security_notice := "🔐 Security Notice: Your inquiry was processed through our secure multi-regional infrastructure with appropriate data protection measures.",
    collaboration_footer := "This response was generated through collaboration between our US and EU support teams, ensuring you receive the highest quality of service across all regions.",
    best_regards := "Best regards,\nGlobal Customer Support Team",
    footer := "🇺🇸 US Operations • 🇪🇺 EU Compliance • 🌍 Multi-Regional Excellence" }

/-- Translation of `lang_templates.get(customer.language, lang_templates["English"])`:
bundle lookup by language with the English bundle as fallback. -/
def getBundle (language : String) : LangBundle :=
  if language = "German" then germanBundle
  else if language = "Italian" then italianBundle
  else if language = "French" then frenchBundle
  else if language = "English" then englishBundle
  else englishBundle

/-- Whether `pat` is an initial segment of `s` (character comparison). -/
def matchesAt : List Char → List Char → Bool
  | [], _ => true
  | _ :: _, [] => false
  | p :: ps, c :: cs => p == c && matchesAt ps cs

/-- Left-to-right non-overlapping substitution of `pat` by `rep` on a
character list, with explicit fuel so the kernel can evaluate it.  Fuel
equal to the length of the input never runs out, since every step
consumes at least one character. -/
def replaceFmt : Nat → List Char → List Char → List Char → List Char
  | 0, s, _, _ => s
  | _ + 1, [], _, _ => []
  | fuel + 1, c :: rest, pat, rep =>
    if pat ≠ [] ∧ matchesAt pat (c :: rest) = true then
      rep ++ replaceFmt fuel (List.drop pat.length (c :: rest)) pat rep
    else c :: replaceFmt fuel rest pat rep

/-- Kernel-computable model of the `str.format` placeholder substitution:
replaces every occurrence of `pat` in `s` by `rep` (the placeholders
`\x7bproduct\x7d`, `\x7btier\x7d`, `\x7bchannel\x7d` never overlap in the
template strings, so chained substitution agrees with `.format`). -/
def pyFormat (s pat rep : String) : String :=
  String.mk (replaceFmt s.data.length s.data pat.data rep.data)

/-- Whether any collaboration step is attributed to the EU agent
(`any(step.agent == "EU" for step in collaboration_steps)`). -/
def hasEUStep (collaboration_steps : List AgentResponse) : Bool :=
  collaboration_steps.any (fun step => step.agent == "EU")

namespace GlobalCustomerSupportService

/-- Translation of
`GlobalCustomerSupportService.generate_enhanced_personalized_response`:
the response is accumulated exactly as the Python `response +=` chain
builds it. -/
def generate_enhanced_personalized_response (query : SupportQuery) (customer : Customer)
    (collaboration_steps : List AgentResponse) : String :=
  let lang := getBundle customer.language
  let greeting := lang.greeting
  let response := greeting ++ " " ++ customer.name ++ ",\n\n"
  let response := response ++ lang.thank_you ++ " " ++ lang.processed_through
  let response := if hasEUStep collaboration_steps then response ++ lang.including_specialists
    else response
  let response := response ++ ".\n\n"
  let product := match customer.purchases.getLast? with
    | some p => p.product
    | none => "current setup"
  let response :=
    if query.category = "technical" then
      response ++ pyFormat (pyFormat (pyFormat lang.technical_analysis
        "\x7bproduct\x7d" product) "\x7btier\x7d" customer.tier)
        "\x7bchannel\x7d" customer.preferred_channel ++ "\n\n"
    else if query.category = "billing" then
      response ++ pyFormat (pyFormat lang.billing_inquiry
        "\x7bproduct\x7d" product) "\x7bchannel\x7d" customer.preferred_channel ++ "\n\n"
    else if query.category = "general" then
      response ++ pyFormat lang.general_inquiry "\x7btier\x7d" customer.tier ++ "\n\n"
    else response
  let response := if customer.region = "EU" then response ++ lang.gdpr_notice ++ "\n\n"
    else response ++ lang.security_notice ++ "\n\n"
  let response := response ++ lang.collaboration_footer ++ "\n\n"
  let response := response ++ lang.best_regards ++ "\n"
  response ++ lang.footer

end GlobalCustomerSupportService

open GlobalCustomerSupportService CustomerService

set_option maxRecDepth 16384

/-- Concrete environment used by the closed witness and counterexample
statements. -/
def demoEnv : Env := { clock := fun n => "T" ++ toString n, epoch := 1726000000, elapsedMs := 42 }

/-- Concrete completion oracle used by the closed witness and
counterexample statements. -/
def demoOracle : CompletionFn := fun _ => "GENERATED RESPONSE"

/-- A query whose `customer_id` matches no customer of the directory. -/
def queryUnknownCustomer : SupportQuery :=
  { id := "q-404", customer_id := "cust-xx-999", message := "Where is my order?",
    timestamp := "2024-09-12T10:00:00Z", priority := "high", category := "technical" }

/-- A query whose `customer_id` resolves to seed customer `cust-us-001`. -/
def queryTechnicalUs : SupportQuery :=
  { id := "q-1", customer_id := "cust-us-001",
    message := "The compliance module shows false positives.",
    timestamp := "2024-09-12T10:05:00Z", priority := "high", category := "technical" }

/-- Helper: on a resolved customer, the agent attributions of the
`process_query` step log are US, US, EU, US, US. -/
theorem process_query_agents (env : Env) (kickoff : CompletionFn) (query : SupportQuery)
    (customer : Customer)
    (h : CustomerService.get_customer_by_id query.customer_id = some customer) :
    (process_query env kickoff query).steps.map (fun s => s.agent) =
      ["US", "US", "EU", "US", "US"] := by
  unfold process_query
  rw [h]
  rfl

/-- Helper: on a resolved customer, the agent attributions of the step
records of the stream are US, US, US, EU, EU, US, US. -/
theorem stream_step_agents (env : Env) (kickoff : CompletionFn) (query : SupportQuery)
    (customer : Customer)
    (h : CustomerService.get_customer_by_id query.customer_id = some customer) :
    (streamSteps (process_query_stream env kickoff query)).map (fun s => s.agent) =
      ["US", "US", "US", "EU", "EU", "US", "US"] := by
  unfold process_query_stream
  rw [h]
  rfl

/-- C9: for all customers, including the customer-not-found case,
`process_query` returns a CollaborationLog whose `query_id` equals the
submitted query's id. -/
theorem C9_query_id_preserved (env : Env) (kickoff : CompletionFn) (query : SupportQuery) :
    (process_query env kickoff query).query_id = query.id := by
  unfold process_query
  split <;> rfl

/-- C10: `get_gdpr_compliant_data` returns a customer record exactly when
the id resolves to that customer and either the region is US, or the
region is EU and the customer consented; an EU customer without consent
and an unknown id both give `none`. -/
theorem C10_gdpr_compliant_data (customer_id : String) (c : Customer) :
    CustomerService.get_gdpr_compliant_data customer_id = some c ↔
      (CustomerService.get_customer_by_id customer_id = some c ∧
        (c.region = "US" ∨ (c.region = "EU" ∧ c.gdpr_consent = true))) := by
  unfold CustomerService.get_gdpr_compliant_data
  cases h : CustomerService.get_customer_by_id customer_id with
  | none => simp
  | some a =>
    dsimp only
    constructor
    · intro hx
      split_ifs at hx with h1 h2
      · obtain rfl : a = c := by injection hx
        exact ⟨rfl, Or.inr h1⟩
      · obtain rfl : a = c := by injection hx
        exact ⟨rfl, Or.inl h2⟩
    · rintro ⟨hac, hc⟩
      obtain rfl : a = c := by injection hac
      split_ifs with h1 h2
      · rfl
      · rfl
      · rcases hc with hus | heu
        · exact absurd hus h2
        · exact absurd heu h1

/-- C4: an unknown `customer_id` makes `process_query` return (it is a
total function: no exception) a log with exactly one step,
`processing_time` 0, the apology-style non-empty final response, and the
submitted query's id. -/
theorem C4_unknown_customer_log (env : Env) (kickoff : CompletionFn) (query : SupportQuery)
    (h : CustomerService.get_customer_by_id query.customer_id = none) :
    (process_query env kickoff query).steps.length = 1 ∧
    (process_query env kickoff query).processing_time = 0 ∧
    (process_query env kickoff query).final_response =
      "I apologize, but I encountered an error processing your request: Customer not found. Please try again or contact our support team directly." ∧
    (process_query env kickoff query).final_response ≠ "" ∧
    (process_query env kickoff query).query_id = query.id := by
  have h3 : (process_query env kickoff query).final_response =
      "I apologize, but I encountered an error processing your request: Customer not found. Please try again or contact our support team directly." := by
    unfold process_query
    rw [h]
    rfl
  refine ⟨?_, ?_, h3, ?_, ?_⟩
  · unfold process_query
    rw [h]
    rfl
  · unfold process_query
    rw [h]
    rfl
  · rw [h3]
    decide
  · unfold process_query
    rw [h]
    rfl

/-- Witness for C4 at the concrete unknown-customer query. -/
theorem C4_unknown_customer_log_witness :
    CustomerService.get_customer_by_id queryUnknownCustomer.customer_id = none ∧
    ((process_query demoEnv demoOracle queryUnknownCustomer).steps.length = 1 ∧
     (process_query demoEnv demoOracle queryUnknownCustomer).processing_time = 0 ∧
     (process_query demoEnv demoOracle queryUnknownCustomer).final_response =
       "I apologize, but I encountered an error processing your request: Customer not found. Please try again or contact our support team directly." ∧
     (process_query demoEnv demoOracle queryUnknownCustomer).final_response ≠ "" ∧
     (process_query demoEnv demoOracle queryUnknownCustomer).query_id = queryUnknownCustomer.id) :=
  ⟨rfl, C4_unknown_customer_log demoEnv demoOracle queryUnknownCustomer rfl⟩

/-- C1 counterexample: at the concrete query whose `customer_id` matches
no customer, the log returned by `process_query` has no step attributed
to the EU agent, so it does not contain at least one step per agent
role. -/
theorem C1_counterexample :
    ¬ ((∃ s ∈ (process_query demoEnv demoOracle queryUnknownCustomer).steps, s.agent = "US") ∧
       (∃ s ∈ (process_query demoEnv demoOracle queryUnknownCustomer).steps, s.agent = "EU")) := by
  intro hc
  rcases hc.2 with ⟨s, hs, ha⟩
  have hmap : (process_query demoEnv demoOracle queryUnknownCustomer).steps.map
      (fun x => x.agent) = ["US"] := rfl
  have h2 : s.agent ∈ (process_query demoEnv demoOracle queryUnknownCustomer).steps.map
      (fun x => x.agent) := List.mem_map_of_mem _ hs
  rw [hmap, ha] at h2
  simp at h2

/-- C1 (amended): for every query whose customer resolves, the
CollaborationLog returned by `process_query` contains at least one step
with agent US and at least one step with agent EU. -/
theorem C1_both_roles_amended (env : Env) (kickoff : CompletionFn) (query : SupportQuery)
    (customer : Customer)
    (h : CustomerService.get_customer_by_id query.customer_id = some customer) :
    (∃ s ∈ (process_query env kickoff query).steps, s.agent = "US") ∧
    (∃ s ∈ (process_query env kickoff query).steps, s.agent = "EU") := by
  have hm := process_query_agents env kickoff query customer h
  constructor
  · have hus : "US" ∈ (process_query env kickoff query).steps.map (fun s => s.agent) := by
      rw [hm]; simp
    exact List.mem_map.mp hus
  · have heu : "EU" ∈ (process_query env kickoff query).steps.map (fun s => s.agent) := by
      rw [hm]; simp
    exact List.mem_map.mp heu

/-- Witness for the amended C1 at the concrete resolved query. -/
theorem C1_both_roles_witness :
    CustomerService.get_customer_by_id queryTechnicalUs.customer_id =
      some CustomerService.custUs001 ∧
    ((∃ s ∈ (process_query demoEnv demoOracle queryTechnicalUs).steps, s.agent = "US") ∧
     (∃ s ∈ (process_query demoEnv demoOracle queryTechnicalUs).steps, s.agent = "EU")) :=
  ⟨rfl, C1_both_roles_amended demoEnv demoOracle queryTechnicalUs CustomerService.custUs001 rfl⟩

/-- C5: for every query, the stream trace is a finite list whose last
record exists and is terminal (a `complete` or an `error` record) and
whose other records are all non-terminal: exactly one terminal record,
with nothing after it. -/
theorem C5_exactly_one_terminal (env : Env) (kickoff : CompletionFn) (query : SupportQuery) :
    ((process_query_stream env kickoff query).getLast?.map isTerminalEvent = some true) ∧
    (∀ e ∈ (process_query_stream env kickoff query).dropLast, isTerminalEvent e = false) := by
  unfold process_query_stream
  cases h : CustomerService.get_customer_by_id query.customer_id with
  | none =>
    refine ⟨rfl, ?_⟩
    intro e he
    simp at he
  | some customer =>
    refine ⟨rfl, ?_⟩
    intro e he
    simp only [List.dropLast, List.mem_cons, List.not_mem_nil, or_false] at he
    rcases he with rfl | rfl | rfl | rfl | rfl | rfl | rfl <;> rfl

/-- C3 counterexample: at the concrete query whose `customer_id` matches
no customer, the stream's first and only record is the dictionary
`{"error": ..., "timestamp": ...}`; it carries no `type` key at all, so
it is not a record with tag field `type` of value `error`. -/
theorem C3_counterexample :
    process_query_stream demoEnv demoOracle queryUnknownCustomer =
      [.errorEvt "Customer not found" "T0"] ∧
    jfield (jsonOf (StreamEvent.errorEvt "Customer not found" "T0")) "type" = none ∧
    jfield (jsonOf (StreamEvent.errorEvt "Customer not found" "T0")) "type" ≠
      some (.jstr "error") :=
  ⟨rfl, rfl, fun hx => Option.noConfusion hx⟩

/-- C3 (amended): for every query whose `customer_id` resolves to no
customer, the stream yields as its first and only record an error record,
whose dictionary has exactly the keys `error` and `timestamp` (no `type`
tag). -/
theorem C3_error_event_amended (env : Env) (kickoff : CompletionFn) (query : SupportQuery)
    (h : CustomerService.get_customer_by_id query.customer_id = none) :
    process_query_stream env kickoff query =
      [.errorEvt "Customer not found" (env.clock 0)] ∧
    jsonOf (StreamEvent.errorEvt "Customer not found" (env.clock 0)) =
      .jobj [("error", .jstr "Customer not found"), ("timestamp", .jstr (env.clock 0))] := by
  unfold process_query_stream
  rw [h]
  exact ⟨rfl, rfl⟩

/-- Witness for the amended C3 at the concrete unknown-customer query. -/
theorem C3_error_event_witness :
    CustomerService.get_customer_by_id queryUnknownCustomer.customer_id = none ∧
    (process_query_stream demoEnv demoOracle queryUnknownCustomer =
      [.errorEvt "Customer not found" (demoEnv.clock 0)] ∧
     jsonOf (StreamEvent.errorEvt "Customer not found" (demoEnv.clock 0)) =
      .jobj [("error", .jstr "Customer not found"), ("timestamp", .jstr (demoEnv.clock 0))]) :=
  ⟨rfl, C3_error_event_amended demoEnv demoOracle queryUnknownCustomer rfl⟩

/-- C2 counterexample: at a concrete resolved query, the step records the
stream materializes are not the steps of the `process_query` log: the
stream has seven step records, the log five. -/
theorem C2_counterexample :
    (streamSteps (process_query_stream demoEnv demoOracle queryTechnicalUs)).map
        (fun s => (s.agent, s.message)) ≠
      (process_query demoEnv demoOracle queryTechnicalUs).steps.map
        (fun s => (s.agent, s.message)) := by
  intro hx
  have h7 : ((streamSteps (process_query_stream demoEnv demoOracle queryTechnicalUs)).map
      (fun s => (s.agent, s.message))).length = 7 := rfl
  have h5 : ((process_query demoEnv demoOracle queryTechnicalUs).steps.map
      (fun s => (s.agent, s.message))).length = 5 := rfl
  have hlen := congrArg List.length hx
  rw [h7, h5] at hlen
  exact absurd hlen (by decide)

/-- C2 (amended): for every query whose customer resolves, the stream
materializes a fixed seven-step sequence (agents US, US, US, EU, EU, US,
US) while the `process_query` log has five steps (agents US, US, EU, US,
US): the two step sequences differ, though both attribute at least one
step to each agent role, and their final steps carry the same message. -/
theorem C2_stream_vs_process_amended (env : Env) (kickoff : CompletionFn)
    (query : SupportQuery) (customer : Customer)
    (h : CustomerService.get_customer_by_id query.customer_id = some customer) :
    (streamSteps (process_query_stream env kickoff query)).map (fun s => s.agent) =
      ["US", "US", "US", "EU", "EU", "US", "US"] ∧
    (process_query env kickoff query).steps.map (fun s => s.agent) =
      ["US", "US", "EU", "US", "US"] ∧
    (streamSteps (process_query_stream env kickoff query)).getLast?.map (fun s => s.message) =
      (process_query env kickoff query).steps.getLast?.map (fun s => s.message) := by
  refine ⟨stream_step_agents env kickoff query customer h,
          process_query_agents env kickoff query customer h, ?_⟩
  have hs : (streamSteps (process_query_stream env kickoff query)).getLast?.map
      (fun s => s.message) = some (final_step_message customer) := by
    unfold process_query_stream
    rw [h]
    rfl
  have hp : (process_query env kickoff query).steps.getLast?.map
      (fun s => s.message) = some (final_step_message customer) := by
    unfold process_query
    rw [h]
    rfl
  rw [hs, hp]

/-- Witness for the amended C2 at the concrete resolved query. -/
theorem C2_stream_vs_process_witness :
    CustomerService.get_customer_by_id queryTechnicalUs.customer_id =
      some CustomerService.custUs001 ∧
    ((streamSteps (process_query_stream demoEnv demoOracle queryTechnicalUs)).map
        (fun s => s.agent) = ["US", "US", "US", "EU", "EU", "US", "US"] ∧
     (process_query demoEnv demoOracle queryTechnicalUs).steps.map (fun s => s.agent) =
        ["US", "US", "EU", "US", "US"] ∧
     (streamSteps (process_query_stream demoEnv demoOracle queryTechnicalUs)).getLast?.map
        (fun s => s.message) =
      (process_query demoEnv demoOracle queryTechnicalUs).steps.getLast?.map
        (fun s => s.message)) :=
  ⟨rfl, C2_stream_vs_process_amended demoEnv demoOracle queryTechnicalUs
    CustomerService.custUs001 rfl⟩

/-- Helper: every bundle the lookup can return has a non-empty
greeting. -/
theorem getBundle_greeting_length_pos (language : String) :
    0 < ((getBundle language).greeting).length := by
  unfold getBundle
  split_ifs <;> decide

/-- Helper: the rendered response always begins with the greeting, so it
is never the empty string. -/
theorem generate_response_ne_empty (query : SupportQuery) (customer : Customer)
    (steps : List AgentResponse) :
    generate_enhanced_personalized_response query customer steps ≠ "" := by
  unfold generate_enhanced_personalized_response
  intro he
  have hl := congrArg String.length he
  simp only [apply_ite String.length, String.length_append] at hl
  have h0 : String.length "" = 0 := rfl
  rw [h0] at hl
  have hg := getBundle_greeting_length_pos customer.language
  split_ifs at hl <;> omega

/-- C6: a customer whose language is outside the known bundle set falls
back deterministically to the English bundle: the renderer produces the
same text as for the English language, and a non-empty string (the
renderer is a total function: no exception). -/
theorem C6_unknown_language_fallback (query : SupportQuery) (customer : Customer)
    (steps : List AgentResponse)
    (h : customer.language ∉ (["German", "Italian", "French", "English"] : List String)) :
    getBundle customer.language = englishBundle ∧
    generate_enhanced_personalized_response query customer steps =
      generate_enhanced_personalized_response query
        { customer with language := "English" } steps ∧
    generate_enhanced_personalized_response query customer steps ≠ "" := by
  have hb : getBundle customer.language = englishBundle := by
    simp only [List.mem_cons, List.not_mem_nil, or_false, not_or] at h
    obtain ⟨h1, h2, h3, h4⟩ := h
    unfold getBundle
    rw [if_neg h1, if_neg h2, if_neg h3, if_neg h4]
  refine ⟨hb, ?_, generate_response_ne_empty query customer steps⟩
  unfold generate_enhanced_personalized_response
  rw [hb]
  rfl

/-- A customer with a language outside the known bundle set, used by the
C6 witness. -/
def customerSpanish : Customer :=
  { id := "cust-es-999", name := "Ana García", email := "ana.garcia@email.es",
    region := "EU", tier := "Silver", language := "Spanish", gdpr_consent := true,
    last_contact := "2024-09-12T12:00:00Z", preferred_channel := "email", purchases := [] }

/-- Witness for C6 at the concrete Spanish-language customer. -/
theorem C6_unknown_language_witness :
    customerSpanish.language ∉ (["German", "Italian", "French", "English"] : List String) ∧
    (getBundle customerSpanish.language = englishBundle ∧
     generate_enhanced_personalized_response queryTechnicalUs customerSpanish [] =
       generate_enhanced_personalized_response queryTechnicalUs
         { customerSpanish with language := "English" } [] ∧
     generate_enhanced_personalized_response queryTechnicalUs customerSpanish [] ≠ "") :=
  ⟨by decide, C6_unknown_language_fallback queryTechnicalUs customerSpanish [] (by decide)⟩

/-- Helper: in every bundle the security notice and the data-protection
notice are distinct texts. -/
theorem bundle_notices_ne (language : String) :
    (getBundle language).security_notice ≠ (getBundle language).gdpr_notice := by
  unfold getBundle
  split_ifs <;> decide

/-- Helper: reassociation of the tail of the rendered response around the
compliance footnote. -/
theorem append_footnote_decomp (r4 note cf br ft : String) :
    ((((((r4 ++ note) ++ "\n\n") ++ cf) ++ "\n\n") ++ br) ++ "\n") ++ ft =
      r4 ++ (note ++ ("\n\n" ++ (cf ++ ("\n\n" ++ (br ++ ("\n" ++ ft)))))) := by
  simp [String.append_assoc]

/-- Helper: the rendered response decomposes around the region-selected
compliance footnote. -/
theorem generate_response_decomp (query : SupportQuery) (customer : Customer)
    (steps : List AgentResponse) :
    ∃ pre post, generate_enhanced_personalized_response query customer steps =
      pre ++ ((if customer.region = "EU" then (getBundle customer.language).gdpr_notice
          else (getBundle customer.language).security_notice) ++ post) := by
  unfold generate_enhanced_personalized_response
  dsimp only
  by_cases hr : customer.region = "EU"
  · rw [if_pos hr, if_pos hr]
    exact ⟨_, _, append_footnote_decomp _ _ _ _ _⟩
  · rw [if_neg hr, if_neg hr]
    exact ⟨_, _, append_footnote_decomp _ _ _ _ _⟩

/-- C7: the compliance footnote of the rendered response is selected by
region alone: the response contains, as one of its sections, the bundle's
data-protection notice exactly when the region is EU and otherwise the
generic security notice, and flipping `gdpr_consent` leaves the rendered
text unchanged. -/
theorem C7_footnote_by_region_only (query : SupportQuery) (customer : Customer)
    (steps : List AgentResponse) (b : Bool) :
    (∃ pre post, generate_enhanced_personalized_response query customer steps =
        pre ++ ((if customer.region = "EU" then (getBundle customer.language).gdpr_notice
            else (getBundle customer.language).security_notice) ++ post)) ∧
    ((if customer.region = "EU" then (getBundle customer.language).gdpr_notice
        else (getBundle customer.language).security_notice) =
          (getBundle customer.language).gdpr_notice ↔ customer.region = "EU") ∧
    generate_enhanced_personalized_response query customer steps =
      generate_enhanced_personalized_response query
        { customer with gdpr_consent := b } steps := by
  refine ⟨generate_response_decomp query customer steps, ?_, rfl⟩
  by_cases hr : customer.region = "EU"
  · rw [if_pos hr]
    exact ⟨fun _ => hr, fun _ => rfl⟩
  · rw [if_neg hr]
    exact ⟨fun hsec => absurd hsec (bundle_notices_ne customer.language),
           fun hEU => absurd hEU hr⟩

/-- C8: a complaint-category query gets no category-specific body: the
rendered response is exactly the greeting, the thanks and
processed-through sentence (with the specialists clause when an EU step
is present), the region-selected compliance footnote, the collaboration
footer, the closing and the signature. -/
theorem C8_complaint_no_body (query : SupportQuery) (customer : Customer)
    (steps : List AgentResponse) (h : query.category = "complaint") :
    generate_enhanced_personalized_response query customer steps =
      (let lang := getBundle customer.language
       let response := lang.greeting ++ " " ++ customer.name ++ ",\n\n"
       let response := response ++ lang.thank_you ++ " " ++ lang.processed_through
       let response := if hasEUStep steps then response ++ lang.including_specialists
         else response
       let response := response ++ ".\n\n"
       let response := if customer.region = "EU" then response ++ lang.gdpr_notice ++ "\n\n"
         else response ++ lang.security_notice ++ "\n\n"
       let response := response ++ lang.collaboration_footer ++ "\n\n"
       let response := response ++ lang.best_regards ++ "\n"
       response ++ lang.footer) := by
  unfold generate_enhanced_personalized_response
  rw [h]
  rfl

/-- A complaint-category query resolving to seed customer `cust-eu-001`,
used by the C8 witness. -/
def queryComplaintEu : SupportQuery :=
  { id := "q-c1", customer_id := "cust-eu-001", message := "I am unhappy with the service.",
    timestamp := "2024-09-12T11:00:00Z", priority := "urgent", category := "complaint" }

/-- Witness for C8 at the concrete complaint query. -/
theorem C8_complaint_no_body_witness :
    queryComplaintEu.category = "complaint" ∧
    generate_enhanced_personalized_response queryComplaintEu CustomerService.custEu001 [] =
      (let lang := getBundle CustomerService.custEu001.language
       let response := lang.greeting ++ " " ++ CustomerService.custEu001.name ++ ",\n\n"
       let response := response ++ lang.thank_you ++ " " ++ lang.processed_through
       let response := if hasEUStep [] then response ++ lang.including_specialists
         else response
       let response := response ++ ".\n\n"
       let response := if CustomerService.custEu001.region = "EU" then
           response ++ lang.gdpr_notice ++ "\n\n"
         else response ++ lang.security_notice ++ "\n\n"
       let response := response ++ lang.collaboration_footer ++ "\n\n"
       let response := response ++ lang.best_regards ++ "\n"
       response ++ lang.footer) :=
  ⟨rfl, C8_complaint_no_body queryComplaintEu CustomerService.custEu001 [] rfl⟩
